import Mathlib

/-!
Shallow embedding of the retool-cli credential lifecycle manager and
scaffold provisioning orchestrator, together with theorems checking the
natural-language specification against the code.

Sources embedded:
- src/unnamed/part_000: utils/apps.ts (deleteApp, getAppsAndFolders) and
  utils/credentials.ts (Credentials, fetchDBCredentials, validateCookies);
- src/src/commands/scaffold.ts: the scaffold command handler (delete,
  from-csv and plain-create branches).

Remote calls and interactive prompts are modelled as oracle inputs; each
handler is a pure function from its arguments and oracle environment to a
trace of issued operations plus an outcome.
-/

namespace RetoolCLI

/-- Credentials record, from utils/credentials.ts. The three base fields are
required; the rest are optional (absent modelled as none). -/
structure Credentials where
  domain : String
  xsrf : String
  accessToken : String
  gridId : Option String := none
  retoolDBUuid : Option String := none
  hasConnectionString : Option Bool := none
  firstName : Option String := none
  lastName : Option String := none
  email : Option String := none
deriving Repr, DecidableEq

/-- App record, from utils/apps.ts. -/
structure App where
  uuid : String
  name : String
  folderId : Int
  id : String
  «protected» : Bool
  updatedAt : String
  createdAt : String
  isGlobalWidget : Bool
deriving Repr, DecidableEq

/-- Folder record, from utils/apps.ts. -/
structure Folder where
  id : Int
  parentFolderId : Int
  name : String
  systemFolder : Bool
  createdAt : String
  updatedAt : String
  folderType : String
  accessLevel : String
deriving Repr, DecidableEq

/-- A remote resource as seen by fetchDBCredentials: only the displayName
(filtered on) and name (used as retoolDBUuid) fields are read. -/
structure Resource where
  displayName : String
  name : String
deriving Repr, DecidableEq

/-- Grid metadata: the gridInfo object of the grid response. The id and
connectionString accesses are optional-chained in the source, so both are
modelled as optional. -/
structure GridInfo where
  id : Option String
  connectionString : Option String
deriving Repr, DecidableEq

/-! Embedding of fetchDBCredentials (utils/credentials.ts).

The remote list of resources and the grid response are inputs; the grid
response is an Option GridInfo collapsing the optional chain
grid?.data?.gridInfo (none when any link is absent). The result pair is
(the record passed to persistCredentials, if any; a status): a first
component of none means persistCredentials was never called, so the
on-disk record is unchanged. -/

/-- Status of a fetchDBCredentials run. noCreds: no stored record, early
return. notFound: no resource named retool_db, error message printed and
early return. persisted: a merged record was persisted. -/
inductive FetchStatus
  | noCreds
  | notFound
  | persisted
deriving Repr, DecidableEq

/-- The value grid?.data?.gridInfo?.id evaluates to. -/
def gridIdOf (gridInfo : Option GridInfo) : Option String :=
  gridInfo.bind (fun g => g.id)

/-- The value grid?.data?.gridInfo?.connectionString?.length > 0 evaluates
to: in the source an undefined link makes the comparison false. -/
def hasConnStrOf (gridInfo : Option GridInfo) : Bool :=
  match gridInfo.bind (fun g => g.connectionString) with
  | some s => s.length > 0
  | none => false

/-- fetchDBCredentials from utils/credentials.ts. Filters the resource list
to displayName retool_db; fewer than one match prints an error and returns
without persisting; otherwise takes the first match, fetches grid info and
persists the merged record. -/
def fetchDBCredentials (stored : Option Credentials) (resources : List Resource)
    (gridInfo : Option GridInfo) : Option Credentials × FetchStatus :=
  match stored with
  | none => (none, .noCreds)
  | some credentials =>
    let retoolDBs := resources.filter (fun r => r.displayName == "retool_db")
    match retoolDBs with
    | [] => (none, .notFound)
    | db :: _ =>
      (some { credentials with
                retoolDBUuid := some db.name,
                gridId := gridIdOf gridInfo,
                hasConnectionString := some (hasConnStrOf gridInfo) },
       .persisted)

/-! Embedding of the three credential regexes of validateCookies
(utils/credentials.ts), as deterministic matchers over the character list
of the string. Each matcher succeeds exactly when the whole string matches
the anchored regex. -/

/-- Character class [0-9a-f] of the UUID regex (lowercase only; the regex
has no case-insensitive flag). -/
def hexLower (c : Char) : Bool :=
  c.isDigit || ('a' ≤ c && c ≤ 'f')

/-- Character class [\w-] of the access-token regex. -/
def wordDashChar (c : Char) : Bool :=
  c.isAlphanum || c = '_' || c = '-'

/-- Character class [a-zA-Z0-9] of the hostname regex. -/
def alnumChar (c : Char) : Bool :=
  c.isAlphanum

/-- Character class [a-zA-Z0-9-] of the hostname regex. -/
def alnumDashChar (c : Char) : Bool :=
  c.isAlphanum || c = '-'

/-- Consume exactly n characters satisfying p, returning the rest. -/
def chompN (p : Char → Bool) : Nat → List Char → Option (List Char)
  | 0, cs => some cs
  | _ + 1, [] => none
  | n + 1, c :: cs => if p c then chompN p n cs else none

/-- Consume exactly the literal character a. -/
def chompChar (a : Char) : List Char → Option (List Char)
  | [] => none
  | c :: cs => if c = a then some cs else none

/-- Consume one character drawn from the list l (a character class given by
enumeration, such as [89ab]). -/
def chompOneOf (l : List Char) : List Char → Option (List Char)
  | [] => none
  | c :: cs => if c ∈ l then some cs else none

/-- Consume one or more characters satisfying p, greedily. Greediness is
exact for the token regex because the separator is outside the class. -/
def chompWhile1 (p : Char → Bool) (cs : List Char) : Option (List Char) :=
  match cs.takeWhile p with
  | [] => none
  | _ :: _ => some (cs.dropWhile p)

/-- Matcher for the uuidRegEx of validateCookies, the anchored pattern
of five dash-separated groups [0-9a-f]\x7b8\x7d, [0-9a-f]\x7b4\x7d,
4[0-9a-f]\x7b3\x7d, [89ab][0-9a-f]\x7b3\x7d, [0-9a-f]\x7b12\x7d. -/
def uuidV4Regex (s : String) : Bool :=
  (chompN hexLower 8 s.data >>= chompChar '-' >>=
   chompN hexLower 4 >>= chompChar '-' >>=
   chompChar '4' >>= chompN hexLower 3 >>= chompChar '-' >>=
   chompOneOf ['8', '9', 'a', 'b'] >>= chompN hexLower 3 >>= chompChar '-' >>=
   chompN hexLower 12) == some []

/-- Matcher for the jwtRegEx of validateCookies: three non-empty
dot-separated segments of [\w-] characters, anchored. -/
def jwtRegex (s : String) : Bool :=
  (chompWhile1 wordDashChar s.data >>= chompChar '.' >>=
   chompWhile1 wordDashChar >>= chompChar '.' >>=
   chompWhile1 wordDashChar) == some []

/-- One hostname label of the hostnameRegEx: a single alphanumeric, or an
alphanumeric, then [a-zA-Z0-9-] characters, then an alphanumeric. -/
def labelMatch (cs : List Char) : Bool :=
  match cs with
  | [] => false
  | [c] => alnumChar c
  | c :: rest =>
    alnumChar c && rest.dropLast.all alnumDashChar &&
      (match rest.getLast? with
       | some d => alnumChar d
       | none => false)

/-- Matcher for the hostnameRegEx of validateCookies: dot-separated labels,
each matching labelMatch. Since a label never contains a dot, the anchored
regex (label.)*label matches exactly when every dot-separated part of the
string is a label. -/
def hostnameRegex (s : String) : Bool :=
  (s.split (· = '.')).all (fun l => labelMatch l.data)

/-- The three validation failures of validateCookies, one per field, in
source order; each prints a distinct field-specific message and exits 1. -/
inductive CookieError
  | xsrfInvalid
  | accessTokenInvalid
  | domainInvalid
deriving Repr, DecidableEq

/-- validateCookies from utils/credentials.ts: checks xsrf, then
accessToken, then domain, exiting at the first failure. Modelled as
returning the first failing field's error, or none when all pass. -/
def validateCookies (credentials : Credentials) : Option CookieError :=
  if !uuidV4Regex credentials.xsrf then some .xsrfInvalid
  else if !jwtRegex credentials.accessToken then some .accessTokenInvalid
  else if !hostnameRegex credentials.domain then some .domainInvalid
  else none

/-! Embedding of deleteApp and getAppsAndFolders (utils/apps.ts).

The fetched pages response is an input (the apps and folders arrays);
getAppsAndFolders drops apps living in the archive system folder. The
confirmation prompt answer and the remote delete call are oracle inputs. -/

/-- The apps component of getAppsAndFolders: all fetched apps except those
whose folderId is the id of the archive system folder (when the fetched
folders contain one; otherwise no app is dropped, since a numeric folderId
never equals an undefined trash id). -/
def visibleApps (apps : List App) (folders : List Folder) : List App :=
  let trashFolderId :=
    (folders.find? (fun f => f.name == "archive" && f.systemFolder == true)).map
      (fun f => f.id)
  match trashFolderId with
  | some t => apps.filter (fun a => a.folderId != t)
  | none => apps

/-- Outcome of a deleteApp run. cancelled: the user declined the
confirmation prompt and the process exited 0. failed: the name matched
zero or more than one app; the message is printed and the process exits 1.
deleted: the single matching app's page id was deleted. -/
inductive DeleteAppResult
  | cancelled
  | failed (message : String)
  | deleted (pageId : String)
deriving Repr, DecidableEq

/-- Process exit code of a deleteApp run: declining confirmation exits 0,
a zero-or-many match exits 1, a successful delete lets the command finish
with exit code 0. -/
def deleteAppExitCode : DeleteAppResult → Nat
  | .cancelled => 0
  | .failed _ => 1
  | .deleted _ => 0

/-- deleteApp from utils/apps.ts: optionally confirm, fetch apps, filter by
exact name equality, fail unless exactly one matches, then delete the
match's page id. -/
def deleteAppRun (appName : String) (confirmDeletion : Bool) (confirmAnswer : Bool)
    (apps : List App) (folders : List Folder) : DeleteAppResult :=
  if confirmDeletion && !confirmAnswer then .cancelled
  else
    let matched := (visibleApps apps folders).filter (fun a => a.name == appName)
    match matched with
    | [a] => .deleted a.id
    | _ => .failed ("0 or >1 Apps named " ++ appName ++ " found. 😓")

/-! Embedding of the scaffold command handler (src/commands/scaffold.ts).

The handler is modelled as a pure function from the parsed argv and an
oracle environment to the trace of operations it issues and an outcome.
Each awaited remote helper is an oracle: when its oracle says it fails,
the run aborts with exit code 1 after issuing the operation (per the spec,
remote errors are fatal and abort the remaining pipeline steps; the
helpers createTable, createTableFromCSV, generateCRUDWorkflow,
createAppForTable, deleteTable and deleteWorkflow live in utils files not
present in the sources). The fire-and-forget operations (logDAU,
insertSampleData) are issued but have no oracle: their outcome never
affects the pipeline. Modelled from the spec: the workflow created or
deleted for table t is named t followed by " CRUD Workflow" (the delete
branch derives this name in source; for the create branch the derivation
happens inside the missing utils/workflows.ts, per the spec's naming
convention). -/

/-- One issued operation of a scaffold run. -/
inductive Event
  | logDAU
  | confirmPrompt (message : String)
  | createTable (name : String) (columns : List String)
  | insertSampleData (name : String)
  | createWorkflow (name : String)
  | createApp (appName : String) (tableName : String) (searchColumn : String)
  | createTableFromCSV (file : String)
  | deleteTable (name : String)
  | deleteWorkflow (name : String)
  | deleteApp (name : String)
deriving Repr, DecidableEq

/-- Outcome of a scaffold run: the handler finished, or the process exited
early with the given code. -/
inductive Outcome
  | ok
  | exited (code : Nat)
deriving Repr, DecidableEq

/-- Parsed argv of the scaffold command. The builder declares name,
columns, delete, from-csv and no-workflow; force is not declared by the
scaffold builder, but yargs still parses it, and the handler never reads
it. -/
structure ScaffoldArgv where
  delete : Option String := none
  name : Option String := none
  columns : Option (List String) := none
  fromCsv : Option (List String) := none
  noWorkflow : Bool := false
  force : Bool := false
deriving Repr, DecidableEq

/-- Oracle environment of a scaffold run: the confirmation prompt answer,
the interactively collected table name and column names, the result of
createTableFromCSV per file, and success of each awaited remote helper
(keyed by the name it is called with where several calls can occur). -/
structure ScaffoldEnv where
  confirm : Bool
  collectedTableName : String
  collectedColumnNames : List String
  csvTable : String → String × List String
  csvOk : String → Bool
  createTableOk : String → Bool
  workflowOk : String → Bool
  createAppOk : String → Bool
  deleteTableOk : Bool
  deleteWorkflowOk : Bool
  deleteAppOk : Bool

/-- The confirmation message of the scaffold delete branch. -/
def deleteConfirmMessage (tableName : String) : String :=
  "Are you sure you want to delete " ++ tableName ++
    " table, CRUD workflow and app?"

/-- Delete branch of the scaffold handler: confirm, then deleteTable,
deleteWorkflow and deleteApp in sequence, aborting on the first failure. -/
def deleteBranch (tableName : String) (env : ScaffoldEnv) : List Event × Outcome :=
  let workflowName := tableName ++ " CRUD Workflow"
  let ev := [Event.confirmPrompt (deleteConfirmMessage tableName)]
  if !env.confirm then (ev, .exited 0)
  else
    let ev := ev ++ [Event.deleteTable tableName]
    if !env.deleteTableOk then (ev, .exited 1)
    else
      let ev := ev ++ [Event.deleteWorkflow workflowName]
      if !env.deleteWorkflowOk then (ev, .exited 1)
      else
        let ev := ev ++ [Event.deleteApp (tableName ++ " App")]
        if !env.deleteAppOk then (ev, .exited 1)
        else (ev, .ok)

/-- The table name the create branch uses: argv.name unless absent or
empty, in which case the interactively collected name. -/
def resolvedTableName (argv : ScaffoldArgv) (env : ScaffoldEnv) : String :=
  match argv.name with
  | none => env.collectedTableName
  | some n => if n.length == 0 then env.collectedTableName else n

/-- The column names the create branch uses: argv.columns unless absent or
empty, in which case the interactively collected columns. -/
def resolvedColNames (argv : ScaffoldArgv) (env : ScaffoldEnv) : List String :=
  match argv.columns with
  | none => env.collectedColumnNames
  | some cs => if cs.length == 0 then env.collectedColumnNames else cs

/-- The createAppForTable call shared by the plain-create and from-csv
branches: the search column is the first column of colNames when non-empty,
the literal string id otherwise; the app name is the table name followed
by " App". -/
def createAppStep (ev : List Event) (tableName : String) (colNames : List String)
    (env : ScaffoldEnv) : List Event × Outcome :=
  let searchColumnName := match colNames with
    | [] => "id"
    | c :: _ => c
  let appName := tableName ++ " App"
  let ev := ev ++ [Event.createApp appName tableName searchColumnName]
  if !env.createAppOk appName then (ev, .exited 1) else (ev, .ok)

/-- The generateCRUDWorkflow call followed by the createAppForTable call,
shared by the plain-create and from-csv branches: the workflow step is
skipped entirely when noWorkflow is set. -/
def workflowThenApp (ev : List Event) (tableName : String) (colNames : List String)
    (noWorkflow : Bool) (env : ScaffoldEnv) : List Event × Outcome :=
  if !noWorkflow then
    let ev := ev ++ [Event.createWorkflow (tableName ++ " CRUD Workflow")]
    if !env.workflowOk tableName then (ev, .exited 1)
    else createAppStep ev tableName colNames env
  else createAppStep ev tableName colNames env

/-- Plain-create branch of the scaffold handler: createTable, detached
insertSampleData, optional generateCRUDWorkflow, createAppForTable. -/
def createBranch (argv : ScaffoldArgv) (env : ScaffoldEnv) : List Event × Outcome :=
  let tableName := resolvedTableName argv env
  let colNames := resolvedColNames argv env
  let ev := [Event.createTable tableName colNames]
  if !env.createTableOk tableName then (ev, .exited 1)
  else
    let ev := ev ++ [Event.insertSampleData tableName]
    workflowThenApp ev tableName colNames argv.noWorkflow env

/-- From-csv branch of the scaffold handler: for each file,
createTableFromCSV, optional generateCRUDWorkflow, createAppForTable,
aborting the loop on the first failure. -/
def csvLoop (files : List String) (noWorkflow : Bool) (env : ScaffoldEnv)
    (acc : List Event) : List Event × Outcome :=
  match files with
  | [] => (acc, .ok)
  | f :: rest =>
    let acc := acc ++ [Event.createTableFromCSV f]
    if !env.csvOk f then (acc, .exited 1)
    else
      let r := env.csvTable f
      match workflowThenApp acc r.1 r.2 noWorkflow env with
      | (ev, .ok) => csvLoop rest noWorkflow env ev
      | (ev, o) => (ev, o)

/-- The scaffold handler: fire-and-forget logDAU, then the delete branch
when argv.delete is a non-empty string (truthiness of a string), else the
from-csv branch when argv.fromCsv is present (an array is always truthy),
else the plain-create branch. -/
def scaffoldHandler (argv : ScaffoldArgv) (env : ScaffoldEnv) : List Event × Outcome :=
  let rest :=
    match argv.fromCsv with
    | some files => csvLoop files argv.noWorkflow env []
    | none => createBranch argv env
  let branch :=
    match argv.delete with
    | some t => if t == "" then rest else deleteBranch t env
    | none => rest
  (Event.logDAU :: branch.1, branch.2)

/-- Canonical lowercase UUID version-4 shape, stated from the amended
specification words: five dash-separated groups of 8, 4, 4, 4 and 12
lowercase hexadecimal digits, the third group starting with the version
nibble 4 and the fourth with a variant nibble among 8, 9, a, b. Used to
compare the source's matcher against the specified shape. -/
def UuidV4Shape (cs : List Char) : Prop :=
  ∃ g1 g2 g3 g4 g5 : List Char,
    cs = g1 ++ '-' :: (g2 ++ '-' :: (g3 ++ '-' :: (g4 ++ '-' :: g5))) ∧
    g1.length = 8 ∧ g2.length = 4 ∧ g3.length = 4 ∧ g4.length = 4 ∧
    g5.length = 12 ∧
    g1.all hexLower = true ∧ g2.all hexLower = true ∧ g3.all hexLower = true ∧
    g4.all hexLower = true ∧ g5.all hexLower = true ∧
    g3.head? = some '4' ∧
    (∃ v, g4.head? = some v ∧ (v = '8' ∨ v = '9' ∨ v = 'a' ∨ v = 'b'))

/-- An oracle environment in which every prompt is approved and every
remote call succeeds, for evaluating concrete scenarios. -/
def allSuccessEnv : ScaffoldEnv where
  confirm := true
  collectedTableName := "collected"
  collectedColumnNames := ["collectedCol"]
  csvTable := fun _ => ("csvTable", ["csvCol"])
  csvOk := fun _ => true
  createTableOk := fun _ => true
  workflowOk := fun _ => true
  createAppOk := fun _ => true
  deleteTableOk := true
  deleteWorkflowOk := true
  deleteAppOk := true

/-- A concrete app named ghost, for evaluating the delete-by-name match
counting. -/
def ghostApp1 : App where
  uuid := "uuid-ghost-1"
  name := "ghost"
  folderId := 1
  id := "page-1"
  «protected» := false
  updatedAt := "2023-01-01"
  createdAt := "2023-01-01"
  isGlobalWidget := false

/-- A second, distinct app also named ghost. -/
def ghostApp2 : App where
  uuid := "uuid-ghost-2"
  name := "ghost"
  folderId := 1
  id := "page-2"
  «protected» := false
  updatedAt := "2023-01-02"
  createdAt := "2023-01-02"
  isGlobalWidget := false

/-- A concrete credentials record with well-formed base fields. -/
def sampleCreds : Credentials where
  domain := "my-org.retool.com"
  xsrf := "26725f72-8129-47f7-835a-cba0e5dbcfe6"
  accessToken := "aaa.bbb.ccc"

/-! Theorems. -/

/-- C4: for every credential record and every remote resource list with no
resource whose display name is retool_db, fetchDBCredentials fails with
NotFound and never calls persistCredentials, so the persisted record is
left completely unchanged. -/
theorem fetchDBCredentials_no_match_not_found
    (creds : Credentials) (resources : List Resource) (gridInfo : Option GridInfo)
    (h : ∀ r ∈ resources, r.displayName ≠ "retool_db") :
    fetchDBCredentials (some creds) resources gridInfo = (none, .notFound) := by
  have hf : resources.filter (fun r => r.displayName == "retool_db") = [] := by
    rw [List.filter_eq_nil_iff]
    intro r hr
    simp [h r hr]
  simp [fetchDBCredentials, hf]

theorem fetchDBCredentials_no_match_not_found_witness :
    fetchDBCredentials (some sampleCreds)
        [{ displayName := "postgres", name := "uuid-1" },
         { displayName := "mysql", name := "uuid-2" }] none
      = (none, .notFound) :=
  fetchDBCredentials_no_match_not_found sampleCreds
    [{ displayName := "postgres", name := "uuid-1" },
     { displayName := "mysql", name := "uuid-2" }] none (by decide)

/-- C5: for every existing credential record and a remote resource list
with exactly one retool_db match, fetchDBCredentials persists a merged
record preserving every field of the input record, with retoolDBUuid the
matched resource's identifier, gridId the fetched grid's identifier, and
hasConnectionString true exactly when the grid's connection-string field
is present and non-empty. -/
theorem fetchDBCredentials_one_match_persists
    (creds : Credentials) (resources : List Resource) (db : Resource) (gi : GridInfo)
    (h : resources.filter (fun r => r.displayName == "retool_db") = [db]) :
    fetchDBCredentials (some creds) resources (some gi) =
      (some { creds with
              retoolDBUuid := some db.name
              gridId := gi.id
              hasConnectionString := some (hasConnStrOf (some gi)) }, .persisted)
    ∧ (hasConnStrOf (some gi) = true ↔ ∃ s, gi.connectionString = some s ∧ s ≠ "") := by
  constructor
  · simp [fetchDBCredentials, h, gridIdOf]
  · cases hcs : gi.connectionString with
    | none => simp [hasConnStrOf, hcs]
    | some s =>
      simp only [hasConnStrOf, Option.bind_eq_bind, Option.some_bind, hcs]
      constructor
      · intro hl
        refine ⟨s, rfl, ?_⟩
        intro hs
        rw [hs] at hl
        simp at hl
      · rintro ⟨s', hs', hne⟩
        obtain rfl : s = s' := by simpa using hs'
        simp only [decide_eq_true_eq]
        cases s with
        | mk l =>
          cases l with
          | nil => exact absurd rfl hne
          | cons c cs => simp [String.length]

theorem fetchDBCredentials_one_match_persists_witness :
    fetchDBCredentials (some sampleCreds)
        [{ displayName := "postgres", name := "uuid-0" },
         { displayName := "retool_db", name := "uuid-1" }]
        (some { id := some "grid-9", connectionString := some "postgres-cs" }) =
      (some { sampleCreds with
              retoolDBUuid := some "uuid-1"
              gridId := some "grid-9"
              hasConnectionString :=
                some (hasConnStrOf (some { id := some "grid-9"
                                           connectionString := some "postgres-cs" })) },
       .persisted)
    ∧ (hasConnStrOf (some { id := some "grid-9",
                            connectionString := some "postgres-cs" }) = true ↔
        ∃ s, (GridInfo.mk (some "grid-9") (some "postgres-cs")).connectionString
              = some s ∧ s ≠ "") :=
  fetchDBCredentials_one_match_persists sampleCreds
    [{ displayName := "postgres", name := "uuid-0" },
     { displayName := "retool_db", name := "uuid-1" }]
    { displayName := "retool_db", name := "uuid-1" }
    { id := some "grid-9", connectionString := some "postgres-cs" } (by decide)

/-- C10: for every remote resource list with two or more retool_db matches,
fetchDBCredentials does not fail with an ambiguity error: it persists a
record whose retoolDBUuid is the identifier of the first matching resource
in list order. -/
theorem fetchDBCredentials_many_matches_first
    (creds : Credentials) (resources : List Resource) (db db2 : Resource)
    (rest : List Resource) (gridInfo : Option GridInfo)
    (h : resources.filter (fun r => r.displayName == "retool_db") = db :: db2 :: rest) :
    fetchDBCredentials (some creds) resources gridInfo =
      (some { creds with
              retoolDBUuid := some db.name
              gridId := gridIdOf gridInfo
              hasConnectionString := some (hasConnStrOf gridInfo) }, .persisted) := by
  simp [fetchDBCredentials, h]

theorem fetchDBCredentials_many_matches_first_witness :
    fetchDBCredentials (some sampleCreds)
        [{ displayName := "retool_db", name := "uuid-1" },
         { displayName := "retool_db", name := "uuid-2" }]
        (some { id := some "grid-9", connectionString := none }) =
      (some { sampleCreds with
              retoolDBUuid := some "uuid-1"
              gridId := gridIdOf (some { id := some "grid-9", connectionString := none })
              hasConnectionString :=
                some (hasConnStrOf (some { id := some "grid-9"
                                           connectionString := none })) },
       .persisted) :=
  fetchDBCredentials_many_matches_first sampleCreds
    [{ displayName := "retool_db", name := "uuid-1" },
     { displayName := "retool_db", name := "uuid-2" }]
    { displayName := "retool_db", name := "uuid-1" }
    { displayName := "retool_db", name := "uuid-2" } []
    (some { id := some "grid-9", connectionString := none }) (by decide)

/-- C6: for every credential record, validateCookies reports the error of
the first malformed field in the fixed order xsrf (session token), then
accessToken, then domain, short-circuiting before any later field is
checked; the three errors are pairwise distinct. The embedding is a pure
function of the record, so validation never mutates its input. -/
theorem validateCookies_first_failure (c : Credentials) :
    (uuidV4Regex c.xsrf = false → validateCookies c = some .xsrfInvalid)
    ∧ (uuidV4Regex c.xsrf = true → jwtRegex c.accessToken = false →
        validateCookies c = some .accessTokenInvalid)
    ∧ (uuidV4Regex c.xsrf = true → jwtRegex c.accessToken = true →
        hostnameRegex c.domain = false → validateCookies c = some .domainInvalid)
    ∧ (CookieError.xsrfInvalid ≠ CookieError.accessTokenInvalid
       ∧ CookieError.xsrfInvalid ≠ CookieError.domainInvalid
       ∧ CookieError.accessTokenInvalid ≠ CookieError.domainInvalid) := by
  refine ⟨?_, ?_, ?_, by decide⟩ <;> intros <;> simp_all [validateCookies]

theorem validateCookies_first_failure_witness :
    validateCookies { domain := "bad..domain"
                      xsrf := "26725f72-8129-47f7-835a-cba0e5dbcfe6"
                      accessToken := "not a token" }
      = some .accessTokenInvalid :=
  (validateCookies_first_failure
      { domain := "bad..domain"
        xsrf := "26725f72-8129-47f7-835a-cba0e5dbcfe6"
        accessToken := "not a token" }).2.1 (by decide) (by decide)

/-- C1 counterexample: in the scenario table name orders, columns id and
name, workflow enabled and every remote call succeeding, the pipeline does
not issue CreateApp with search column name; it issues CreateApp with
search column id, the first element of the column list. -/
theorem scaffold_create_search_column_counterexample :
    Event.createApp "orders App" "orders" "name"
        ∉ (scaffoldHandler { name := some "orders", columns := some ["id", "name"] }
            allSuccessEnv).1
    ∧ Event.createApp "orders App" "orders" "id"
        ∈ (scaffoldHandler { name := some "orders", columns := some ["id", "name"] }
            allSuccessEnv).1 := by
  decide

/-- C1 amended: in the create pipeline, for every invocation with a
non-empty column list, the CreateApp step receives as its search column the
first column of the list as given (regardless of which column is the
identifier; the literal string id is used only when the column list is
empty); in the scenario the pipeline issues CreateTable, then detached
InsertSampleData, then CreateWorkflow, then CreateApp with search column
id, the first listed column. -/
theorem scaffold_create_search_column (argv : ScaffoldArgv) (env : ScaffoldEnv)
    (t c : String) (restCols : List String)
    (hd : argv.delete = none) (hf : argv.fromCsv = none)
    (hn : argv.name = some t) (ht : t ≠ "")
    (hc : argv.columns = some (c :: restCols))
    (hw : argv.noWorkflow = false)
    (h1 : env.createTableOk t = true) (h2 : env.workflowOk t = true)
    (h3 : env.createAppOk (t ++ " App") = true) :
    scaffoldHandler argv env =
      ([.logDAU, .createTable t (c :: restCols), .insertSampleData t,
        .createWorkflow (t ++ " CRUD Workflow"),
        .createApp (t ++ " App") t c], .ok) := by
  have htl : (t.length == 0) = false := by
    cases t with
    | mk l =>
      cases l with
      | nil => exact absurd rfl ht
      | cons a l => simp [String.length]
  simp [scaffoldHandler, createBranch, resolvedTableName, resolvedColNames,
    workflowThenApp, createAppStep, hd, hf, hn, hc, hw, htl, h1, h2, h3]

theorem scaffold_create_search_column_witness :
    scaffoldHandler { name := some "orders", columns := some ["id", "name"] }
        allSuccessEnv =
      ([.logDAU, .createTable "orders" ["id", "name"], .insertSampleData "orders",
        .createWorkflow "orders CRUD Workflow",
        .createApp "orders App" "orders" "id"], .ok) :=
  scaffold_create_search_column
    { name := some "orders", columns := some ["id", "name"] } allSuccessEnv
    "orders" "id" ["name"] rfl rfl rfl (by decide) rfl rfl (by decide) (by decide)
    (by decide)

/-- C2 counterexample: deleting orders with a force flag set still issues
the interactive confirmation prompt; the scaffold builder declares no
force flag and its handler never reads one. -/
theorem scaffold_delete_force_counterexample :
    Event.confirmPrompt (deleteConfirmMessage "orders")
      ∈ (scaffoldHandler { delete := some "orders", force := true } allSuccessEnv).1 := by
  decide

/-- C2 amended: every delete-pipeline invocation requests interactive
confirmation, force flag or not (the scaffold builder defines no force
flag and the handler ignores one if passed); when the user confirms and
every remote call succeeds, the pipeline issues DeleteTable, then
DeleteWorkflow of the derived workflow name, then DeleteApp of the derived
app name, in that order after the confirmation prompt. -/
theorem scaffold_delete_always_confirms (argv : ScaffoldArgv) (env : ScaffoldEnv)
    (t : String) (hd : argv.delete = some t) (ht : t ≠ "")
    (hc : env.confirm = true) (h1 : env.deleteTableOk = true)
    (h2 : env.deleteWorkflowOk = true) (h3 : env.deleteAppOk = true) :
    scaffoldHandler argv env =
      ([.logDAU, .confirmPrompt (deleteConfirmMessage t), .deleteTable t,
        .deleteWorkflow (t ++ " CRUD Workflow"), .deleteApp (t ++ " App")], .ok)
    ∧ ∀ env' : ScaffoldEnv,
        Event.confirmPrompt (deleteConfirmMessage t)
          ∈ (scaffoldHandler argv env').1 := by
  have hte : (t == "") = false := by
    simp only [beq_eq_false_iff_ne, ne_eq]
    exact ht
  constructor
  · simp [scaffoldHandler, deleteBranch, hd, hte, hc, h1, h2, h3]
  · intro env'
    by_cases hcf : env'.confirm
    · by_cases hdt : env'.deleteTableOk
      · by_cases hdw : env'.deleteWorkflowOk
        · by_cases hda : env'.deleteAppOk <;>
            simp [scaffoldHandler, deleteBranch, hd, hte, hcf, hdt, hdw, hda]
        · simp [scaffoldHandler, deleteBranch, hd, hte, hcf, hdt, hdw]
      · simp [scaffoldHandler, deleteBranch, hd, hte, hcf, hdt]
    · simp [scaffoldHandler, deleteBranch, hd, hte, hcf]

theorem scaffold_delete_always_confirms_witness :
    scaffoldHandler { delete := some "orders", force := true } allSuccessEnv =
      ([.logDAU, .confirmPrompt (deleteConfirmMessage "orders"),
        .deleteTable "orders", .deleteWorkflow "orders CRUD Workflow",
        .deleteApp "orders App"], .ok)
    ∧ ∀ env' : ScaffoldEnv,
        Event.confirmPrompt (deleteConfirmMessage "orders")
          ∈ (scaffoldHandler { delete := some "orders", force := true } env').1 :=
  scaffold_delete_always_confirms
    { delete := some "orders", force := true } allSuccessEnv "orders"
    rfl (by decide) rfl rfl rfl rfl

/-- C3 counterexample: with two apps named ghost, deleteApp fails with the
fixed message naming the possibilities 0 or more than 1, not the actual
conflicting count: the message contains no character 2, and it is the very
message produced for zero matches, so there are no distinct not-found and
ambiguous-match errors naming counts. -/
theorem deleteApp_count_message_counterexample :
    deleteAppRun "ghost" false true [ghostApp1, ghostApp2] []
      = .failed ("0 or >1 Apps named ghost found. 😓")
    ∧ ¬ ('2' ∈ ("0 or >1 Apps named ghost found. 😓").data)
    ∧ deleteAppRun "ghost" false true [] []
      = .failed ("0 or >1 Apps named ghost found. 😓") := by
  decide

/-- C3 amended: for every delete of a named app that is not cancelled at
the confirmation prompt, if the number of name matches differs from one
the operation fails with a single error whose fixed message says 0 or
more than 1 apps of that name were found (it does not name the actual
count), and the process exits with code 1; matching targets are never
silently skipped. -/
theorem deleteApp_match_count_failure (appName : String)
    (confirmDeletion confirmAnswer : Bool) (apps : List App) (folders : List Folder)
    (hconf : confirmDeletion = false ∨ confirmAnswer = true)
    (hn : ((visibleApps apps folders).filter (fun a => a.name == appName)).length ≠ 1) :
    deleteAppRun appName confirmDeletion confirmAnswer apps folders
      = .failed ("0 or >1 Apps named " ++ appName ++ " found. 😓")
    ∧ deleteAppExitCode
        (deleteAppRun appName confirmDeletion confirmAnswer apps folders) = 1 := by
  have hcc : (confirmDeletion && !confirmAnswer) = false := by
    rcases hconf with h | h <;> simp [h]
  rcases hm : (visibleApps apps folders).filter (fun a => a.name == appName)
    with _ | ⟨a, _ | ⟨b, l⟩⟩
  · constructor <;> simp [deleteAppRun, hcc, hm, deleteAppExitCode]
  · exact absurd (by simp [hm]) hn
  · constructor <;> simp [deleteAppRun, hcc, hm, deleteAppExitCode]

theorem deleteApp_match_count_failure_witness :
    deleteAppRun "ghost" false true [ghostApp1, ghostApp2] []
      = .failed ("0 or >1 Apps named " ++ "ghost" ++ " found. 😓")
    ∧ deleteAppExitCode (deleteAppRun "ghost" false true [ghostApp1, ghostApp2] [])
      = 1 :=
  deleteApp_match_count_failure "ghost" false true [ghostApp1, ghostApp2] []
    (Or.inl rfl) (by decide)

/-- C7: in every scaffold run with the workflow flag disabled, no
CreateWorkflow operation is ever issued, in any branch and whatever the
other outcomes; and in every plain-create run where the CreateWorkflow
step fails, no CreateApp operation is issued (fail-fast ordering). -/
theorem scaffold_workflow_gating (argv : ScaffoldArgv) (env : ScaffoldEnv) :
    (argv.noWorkflow = true →
      ∀ n, Event.createWorkflow n ∉ (scaffoldHandler argv env).1)
    ∧ (argv.delete = none → argv.fromCsv = none → argv.noWorkflow = false →
        env.workflowOk (resolvedTableName argv env) = false →
        ∀ a t c, Event.createApp a t c ∉ (scaffoldHandler argv env).1) := by
  constructor
  · intro hw n
    have happ : ∀ ev tn cols,
        Event.createWorkflow n ∉ ev →
        Event.createWorkflow n ∉ (createAppStep ev tn cols env).1 := by
      intro ev tn cols hmem
      unfold createAppStep
      by_cases h : env.createAppOk (tn ++ " App") <;> simp [h, hmem]
    have hwta : ∀ ev tn cols,
        Event.createWorkflow n ∉ ev →
        Event.createWorkflow n ∉ (workflowThenApp ev tn cols true env).1 := by
      intro ev tn cols hmem
      unfold workflowThenApp
      simpa using happ ev tn cols hmem
    have hcsv : ∀ files acc,
        Event.createWorkflow n ∉ acc →
        Event.createWorkflow n ∉ (csvLoop files true env acc).1 := by
      intro files
      induction files with
      | nil => intro acc hmem; simpa [csvLoop] using hmem
      | cons f fs ih =>
        intro acc hmem
        have hmem' : Event.createWorkflow n ∉ acc ++ [Event.createTableFromCSV f] := by
          simp [hmem]
        unfold csvLoop
        by_cases hok : env.csvOk f
        · simp only [hok, Bool.not_true, Bool.false_eq_true, if_false, if_neg,
            Bool.not_eq_true']
          rcases hres : workflowThenApp (acc ++ [Event.createTableFromCSV f])
              (env.csvTable f).1 (env.csvTable f).2 true env with ⟨ev, o⟩
          have hev : Event.createWorkflow n ∉ ev := by
            have := hwta (acc ++ [Event.createTableFromCSV f])
              (env.csvTable f).1 (env.csvTable f).2 hmem'
            rw [hres] at this
            exact this
          cases o with
          | ok => simpa [hok, hres] using ih ev hev
          | exited code => simpa [hok, hres] using hev
        · simpa [hok] using hmem'
    unfold scaffoldHandler
    rcases argv.delete with _ | t
    · rcases argv.fromCsv with _ | files
      · simp only
        unfold createBranch
        by_cases h1 : env.createTableOk (resolvedTableName argv env)
        · have := hwta [Event.createTable (resolvedTableName argv env)
              (resolvedColNames argv env), Event.insertSampleData
              (resolvedTableName argv env)]
            (resolvedTableName argv env) (resolvedColNames argv env) (by simp)
          rw [hw] at *
          simpa [h1] using this
        · simp [h1]
      · rw [hw]
        simpa using hcsv files [] (by simp)
    · by_cases ht : t == ""
      · rcases argv.fromCsv with _ | files
        · simp only [ht, if_pos]
          unfold createBranch
          by_cases h1 : env.createTableOk (resolvedTableName argv env)
          · have := hwta [Event.createTable (resolvedTableName argv env)
                (resolvedColNames argv env), Event.insertSampleData
                (resolvedTableName argv env)]
              (resolvedTableName argv env) (resolvedColNames argv env) (by simp)
            rw [hw] at *
            simpa [h1] using this
          · simp [ht, h1]
        · rw [hw]
          simpa [ht] using hcsv files [] (by simp)
      · unfold deleteBranch
        by_cases hcf : env.confirm
        · by_cases hdt : env.deleteTableOk
          · by_cases hdw : env.deleteWorkflowOk
            · by_cases hda : env.deleteAppOk <;>
                simp [ht, hcf, hdt, hdw, hda]
            · simp [ht, hcf, hdt, hdw]
          · simp [ht, hcf, hdt]
        · simp [ht, hcf]
  · intro hd hf hw hfail a t c
    unfold scaffoldHandler
    rw [hd, hf]
    simp only
    unfold createBranch
    by_cases h1 : env.createTableOk (resolvedTableName argv env)
    · unfold workflowThenApp
      rw [hw]
      simp [h1, hfail]
    · simp [h1]

theorem scaffold_workflow_gating_witness :
    Event.createWorkflow "orders CRUD Workflow"
      ∉ (scaffoldHandler
            { name := some "orders"
              columns := some ["id", "name"]
              noWorkflow := true } allSuccessEnv).1 :=
  (scaffold_workflow_gating
      { name := some "orders", columns := some ["id", "name"], noWorkflow := true }
      allSuccessEnv).1 rfl "orders CRUD Workflow"

/-- C8: in every scaffold delete run, declining the confirmation prompt
issues none of DeleteTable, DeleteWorkflow or DeleteApp and exits the
process with code 0; and in every run where the DeleteTable step fails,
neither DeleteWorkflow nor DeleteApp is ever issued. -/
theorem scaffold_delete_abort (argv : ScaffoldArgv) (env : ScaffoldEnv) (t : String)
    (hd : argv.delete = some t) (ht : t ≠ "") :
    (env.confirm = false →
      scaffoldHandler argv env =
        ([.logDAU, .confirmPrompt (deleteConfirmMessage t)], .exited 0))
    ∧ (env.deleteTableOk = false →
        ∀ n, Event.deleteWorkflow n ∉ (scaffoldHandler argv env).1
          ∧ Event.deleteApp n ∉ (scaffoldHandler argv env).1) := by
  have hte : (t == "") = false := by
    simp only [beq_eq_false_iff_ne, ne_eq]
    exact ht
  constructor
  · intro hcf
    simp [scaffoldHandler, deleteBranch, hd, hte, hcf]
  · intro hdt n
    by_cases hcf : env.confirm <;>
      simp [scaffoldHandler, deleteBranch, hd, hte, hcf, hdt]

theorem scaffold_delete_abort_witness :
    scaffoldHandler { delete := some "orders" }
        { allSuccessEnv with confirm := false } =
      ([.logDAU, .confirmPrompt (deleteConfirmMessage "orders")], .exited 0) :=
  (scaffold_delete_abort { delete := some "orders" }
      { allSuccessEnv with confirm := false } "orders" rfl (by decide)).1 rfl

/-- C9 counterexample: an uppercase spelling of a canonically shaped
version-4 identifier is rejected by validateCookies (the source regex has
no case-insensitive flag and lists only lowercase hexadecimal digits),
while its lowercase spelling is accepted. -/
theorem validate_uuid_uppercase_counterexample :
    validateCookies { domain := "my-org.retool.com"
                      xsrf := "26725F72-8129-47F7-835A-CBA0E5DBCFE6"
                      accessToken := "aaa.bbb.ccc" }
      = some .xsrfInvalid
    ∧ uuidV4Regex "26725f72-8129-47f7-835a-cba0e5dbcfe6" = true
    ∧ uuidV4Regex "26725F72-8129-47F7-835A-CBA0E5DBCFE6" = false := by
  decide

/-- Characterization of chompN: it succeeds leaving rest exactly when the
input splits as an n-character class-satisfying block followed by rest. -/
theorem chompN_eq_some {p : Char → Bool} : ∀ {n : Nat} {cs rest : List Char},
    chompN p n cs = some rest ↔
      ∃ pre, pre.length = n ∧ pre.all p = true ∧ cs = pre ++ rest := by
  intro n
  induction n with
  | zero =>
    intro cs rest
    simp only [chompN, Option.some.injEq]
    constructor
    · rintro rfl
      exact ⟨[], rfl, rfl, rfl⟩
    · rintro ⟨pre, hl, _, rfl⟩
      obtain rfl : pre = [] := List.length_eq_zero.mp hl
      rfl
  | succ n ih =>
    intro cs rest
    cases cs with
    | nil =>
      constructor
      · intro h
        exact absurd h (by simp [chompN])
      · rintro ⟨pre, hl, _, heq⟩
        have hpre : pre = [] := by
          cases pre with
          | nil => rfl
          | cons a l => simp at heq
        rw [hpre] at hl
        simp at hl
    | cons c cs' =>
      simp only [chompN]
      by_cases h : p c
      · rw [if_pos h, ih]
        constructor
        · rintro ⟨pre, hl, hall, rfl⟩
          exact ⟨c :: pre, by simp [hl], by simp [h, hall], rfl⟩
        · rintro ⟨pre, hl, hall, heq⟩
          cases pre with
          | nil => simp at hl
          | cons d pre' =>
            injection heq with h1 h2
            refine ⟨pre', by simpa using hl, ?_, h2⟩
            simp only [List.all_cons, Bool.and_eq_true] at hall
            exact hall.2
      · rw [if_neg h]
        constructor
        · intro hc
          exact absurd hc (by simp)
        · rintro ⟨pre, hl, hall, heq⟩
          cases pre with
          | nil => simp at hl
          | cons d pre' =>
            injection heq with h1 h2
            subst h1
            simp only [List.all_cons, Bool.and_eq_true] at hall
            exact absurd hall.1 (by simp [h])

/-- Characterization of chompChar: it consumes exactly the literal. -/
theorem chompChar_eq_some {a : Char} {cs rest : List Char} :
    chompChar a cs = some rest ↔ cs = a :: rest := by
  cases cs with
  | nil => simp [chompChar]
  | cons c cs' =>
    simp only [chompChar]
    by_cases h : c = a
    · subst h
      simp
    · simp [h]

/-- Characterization of chompOneOf: it consumes one character of the
enumerated class. -/
theorem chompOneOf_eq_some {l cs rest : List Char} :
    chompOneOf l cs = some rest ↔ ∃ c, c ∈ l ∧ cs = c :: rest := by
  cases cs with
  | nil => simp [chompOneOf]
  | cons c cs' =>
    simp only [chompOneOf]
    by_cases h : c ∈ l
    · rw [if_pos h]
      constructor
      · intro hr
        obtain rfl : cs' = rest := by simpa using hr
        exact ⟨c, h, rfl⟩
      · rintro ⟨d, hd, heq⟩
        injection heq with h1 h2
        rw [h2]
    · rw [if_neg h]
      constructor
      · intro hc
        exact absurd hc (by simp)
      · rintro ⟨d, hd, heq⟩
        injection heq with h1 h2
        subst h1
        exact absurd hd h

/-- C9 amended: validateCookies accepts a session token exactly when it
has the lowercase canonical UUID version-4 shape: five dash-separated
groups of 8, 4, 4, 4 and 12 lowercase hexadecimal digits, the version
nibble 4 and a variant nibble among 8, 9, a, b; uppercase spellings are
rejected, being outside this shape. -/
theorem uuidV4Regex_iff_shape (s : String) :
    uuidV4Regex s = true ↔ UuidV4Shape s.data := by
  simp only [uuidV4Regex, beq_iff_eq, Option.bind_eq_bind, Option.bind_assoc,
    Option.bind_eq_some, chompN_eq_some, chompChar_eq_some, chompOneOf_eq_some,
    UuidV4Shape]
  constructor
  · rintro ⟨a1, ⟨g1, hl1, ha1, he1⟩, a2, he2, a3, ⟨g2, hl2, ha2, he3⟩, a4, he4,
      a5, he5, a6, ⟨m3, hl3, ha3, he6⟩, a7, he7, a8, ⟨v, hv, he8⟩, a9,
      ⟨m4, hl4, ha4, he9⟩, a10, he10, g5, hl5, ha5, he11⟩
    subst he2 he3 he4 he5 he6 he7 he8 he9 he10 he11
    have h4hex : hexLower '4' = true := by decide
    have hvhex : hexLower v = true := by
      simp only [List.mem_cons, List.not_mem_nil, or_false] at hv
      rcases hv with rfl | rfl | rfl | rfl <;> decide
    refine ⟨g1, g2, '4' :: m3, v :: m4, g5, ?_, hl1, hl2, by simp [hl3],
      by simp [hl4], hl5, ha1, ha2, ?_, ?_, ha5, rfl, v, rfl, ?_⟩
    · simpa using he1
    · simp [List.all_cons, h4hex, ha3]
    · simp [List.all_cons, hvhex, ha4]
    · simpa using hv
  · rintro ⟨g1, g2, g3, g4, g5, hcs, hl1, hl2, hl3, hl4, hl5, ha1, ha2, ha3,
      ha4, ha5, hh3, v, hh4, hv⟩
    cases g3 with
    | nil => simp at hh3
    | cons c3 m3 =>
      obtain rfl : c3 = '4' := by simpa using hh3
      cases g4 with
      | nil => simp at hh4
      | cons c4 m4 =>
        obtain rfl : v = c4 := by simpa using hh4.symm
        simp only [List.all_cons, Bool.and_eq_true] at ha3 ha4
        have hv' : v ∈ ['8', '9', 'a', 'b'] := by
          simp only [List.mem_cons, List.not_mem_nil, or_false]
          exact hv
        exact ⟨'-' :: (g2 ++ '-' :: (('4' :: m3) ++ '-' :: ((v :: m4) ++ '-' :: g5))),
          ⟨g1, hl1, ha1, hcs⟩,
          g2 ++ '-' :: (('4' :: m3) ++ '-' :: ((v :: m4) ++ '-' :: g5)), rfl,
          '-' :: (('4' :: m3) ++ '-' :: ((v :: m4) ++ '-' :: g5)),
          ⟨g2, hl2, ha2, rfl⟩,
          ('4' :: m3) ++ '-' :: ((v :: m4) ++ '-' :: g5), rfl,
          m3 ++ '-' :: ((v :: m4) ++ '-' :: g5), rfl,
          '-' :: ((v :: m4) ++ '-' :: g5),
          ⟨m3, by simpa using hl3, ha3.2, rfl⟩,
          (v :: m4) ++ '-' :: g5, rfl,
          m4 ++ '-' :: g5, ⟨v, hv', rfl⟩,
          '-' :: g5, ⟨m4, by simpa using hl4, ha4.2, rfl⟩,
          g5, rfl, g5, hl5, ha5, by simp⟩

end RetoolCLI
